import Mathlib

/-!
A verification development for the routing/extraction core of the
rustserve HTTP library: the request view, the match context, the
filter combinator tree and its matching engine, the tuple-combining
algebra, the handler adapter with its 404 fallback, and the
IntoResponse conversions.  Definitions are transcribed from
src/http/method.rs, src/http/request.rs, src/http/filter.rs and
src/http/response.rs.
-/

namespace RustServe

/-- HTTP methods (src/http/method.rs, `enum Method`). -/
inductive Method where
  | get | post | put | delete | patch | head | options
  deriving DecidableEq, Repr

/-- Rust `str::trim_matches('/')`: drop leading and trailing slash
characters (used by `Request::new`, src/http/request.rs:27). -/
def trimSlashes (s : String) : String :=
  String.mk (((s.toList.dropWhile (fun c => c = '/')).reverse.dropWhile
    (fun c => c = '/')).reverse)

/-- Rust `str::split('/')` on a character-list accumulator: substrings
between slashes, empty pieces kept, one (possibly empty) piece more
than there are separators. -/
def splitSlashAux : List Char → List Char → List String
  | [], acc => [String.mk acc.reverse]
  | c :: cs, acc =>
    if c = '/' then String.mk acc.reverse :: splitSlashAux cs []
    else splitSlashAux cs (c :: acc)

/-- Rust `str::split('/')` as used both by `Request::new` and by
`Path::filter` on the route literal. -/
def splitSlash (s : String) : List String :=
  splitSlashAux s.toList []

/-- The parsed request view (src/http/request.rs, `struct Request`).
Header keys are stored lowercased; the body byte vector is modelled as
the string it encodes. -/
structure Request where
  method : Method
  path_segments : List String
  headers : List (String × String)
  body : Option String
  deriving DecidableEq, Repr

/-- The path normalization performed by `Request::new`
(src/http/request.rs:26-31): trim `/` from both ends, split on `/`,
drop empty components. -/
def newPathSegments (path : String) : List String :=
  (splitSlash (trimSlashes path)).filter (fun s => !s.isEmpty)

/-- Rust `Request::new` (src/http/request.rs:20-44): normalizes the path and
lowercases the header names. -/
def Request.new (method : Method) (path : String)
    (headers : List (String × String)) (body : Option String) : Request :=
  { method := method
    path_segments := newPathSegments path
    headers := headers.map (fun kv => (kv.1.toLower, kv.2))
    body := body }

/-- The path-segment computation of the stream parser `Request::parse`
(src/http/request.rs:92): `path.split('/')` verbatim, with no trimming
and no dropping of empty components. -/
def parsePathSegments (path : String) : List String :=
  splitSlash path

/-- First-match lookup in the header association list (modelling
`HashMap::get`). -/
def lookupHeader : List (String × String) → String → Option String
  | [], _ => none
  | kv :: rest, n => if kv.1 = n then some kv.2 else lookupHeader rest n

/-- Rust `Request::header` (src/http/request.rs:66-68): lowercase the query
and look it up. -/
def Request.header (req : Request) (name : String) : Option String :=
  lookupHeader req.headers name.toLower

/-- Rust `Request::path_segment` (src/http/request.rs:58-60). -/
def Request.path_segment (req : Request) (i : Nat) : Option String :=
  req.path_segments.get? i

/-- Rust `Context::next_segment` (src/http/filter.rs:21-25): return the
segment under the cursor, *unconditionally* advancing the cursor by
one, also when the context is exhausted.  The context of the source
is a borrowed request plus `path_index`; the request is immutable, so
the context state is the cursor alone. -/
def next_segment (req : Request) (i : Nat) : Option String × Nat :=
  (req.path_segment i, i + 1)

/-- A base extracted value: path parameters and header values are
strings (a `PathParam<T>` conversion `T::from` is infallible, so the
parameter is modelled by its string preimage); `Maybe` wraps its
optional slot in `Option`. -/
inductive Val where
  | str (s : String)
  | opt (o : Option Val)

/-- Decidable equality of base values (structural). -/
def Val.decEq : (a b : Val) → Decidable (a = b)
  | .str a, .str b =>
    if h : a = b then isTrue (by rw [h]) else isFalse (by simp [h])
  | .str _, .opt _ => isFalse (by simp)
  | .opt _, .str _ => isFalse (by simp)
  | .opt none, .opt none => isTrue rfl
  | .opt none, .opt (some _) => isFalse (by simp)
  | .opt (some _), .opt none => isFalse (by simp)
  | .opt (some a), .opt (some b) =>
    match Val.decEq a b with
    | isTrue h => isTrue (by rw [h])
    | isFalse h => isFalse (by simp [h])

instance : DecidableEq Val := Val.decEq

/-- An extracted payload: a flat tuple of base values, or one of the
two `Either` variants produced by `Or` (src/http/filter.rs:189-192). -/
inductive Ext where
  | tup (vs : List Val)
  | eA (e : Ext)
  | eB (e : Ext)

/-- Decidable equality of extracted payloads (structural). -/
def Ext.decEq : (a b : Ext) → Decidable (a = b)
  | .tup a, .tup b =>
    if h : a = b then isTrue (by rw [h]) else isFalse (by simp [h])
  | .eA a, .eA b =>
    match Ext.decEq a b with
    | isTrue h => isTrue (by rw [h])
    | isFalse h => isFalse (by simp [h])
  | .eB a, .eB b =>
    match Ext.decEq a b with
    | isTrue h => isTrue (by rw [h])
    | isFalse h => isFalse (by simp [h])
  | .tup _, .eA _ => isFalse (by simp)
  | .tup _, .eB _ => isFalse (by simp)
  | .eA _, .tup _ => isFalse (by simp)
  | .eA _, .eB _ => isFalse (by simp)
  | .eB _, .tup _ => isFalse (by simp)
  | .eB _, .eA _ => isFalse (by simp)

instance : DecidableEq Ext := Ext.decEq

/-- The `Combiner` trait (src/http/filter.rs:235-270).  Exactly four
instances exist in the source; `none` models the absence of a
`Combiner` instance, i.e. a composition that does not typecheck in
Rust:
* `impl<A> Combiner<()> for A` — anything absorbs the empty tuple;
* `impl<T> Combiner<(T,)> for ()`;
* `impl<A, B> Combiner<(B,)> for (A,)`;
* `impl<A, B, C> Combiner<(C,)> for (A, B)`. -/
def combine : Ext → Ext → Option Ext
  | a, .tup [] => some a
  | .tup [], .tup [t] => some (.tup [t])
  | .tup [a], .tup [b] => some (.tup [a, b])
  | .tup [a, b], .tup [c] => some (.tup [a, b, c])
  | _, _ => none

/-- The `OneTuple` trait (src/http/filter.rs:135-146): implemented only
for one-element tuples, where `extract` returns the sole component.
`none` models the absence of an instance. -/
def extractOne : Ext → Option Val
  | .tup [v] => some v
  | _ => none

/-- The filter combinator tree (src/http/filter.rs): the primitives
`Method`, `Path` (a literal split on `/` at match time), `PathParam`,
`Header`, `End` and the trivial `()` filter, and the combinators
`And`, `Or`, `Maybe`, `Map`.  A `Map` carries its user function on
extracted payloads. -/
inductive Filter where
  | method (m : Method)
  | pathLit (path : String)
  | pathParam
  | header (name : String)
  | endF
  | unit
  | and (a b : Filter)
  | or (a b : Filter)
  | maybe (a b : Filter)
  | map (a : Filter) (f : Ext → Ext)

/-- The loop of `Path::filter` (src/http/filter.rs:116-124): for each
sub-segment of the literal, take the next request segment and compare;
the first mismatch stops the loop with the cursor already advanced
past the offending position (the source never restores it). -/
def pathLoop (req : Request) : List String → Nat → Bool × Nat
  | [], i => (true, i)
  | seg :: rest, i =>
    let sn := next_segment req i
    if sn.1 = some seg then pathLoop req rest sn.2 else (false, sn.2)

/-- Rust `Filter::filter` for every node of the tree, transcribed from the
`impl Filter for …` blocks of src/http/filter.rs.  The mutable borrowed
context is passed as the cursor `i` and returned next to the result.
`Or` and `Maybe` clone the context (`fork`) and overwrite it on the
success of the speculative branch, exactly as the source does; `And` and the
consuming primitives perform no restore whatsoever. -/
def Filter.run : Filter → Request → Nat → Option Ext × Nat
  | .method m, req, i =>
    (if req.method = m then some (.tup []) else none, i)
  | .pathLit p, req, i =>
    let r := pathLoop req (splitSlash p) i
    (if r.1 then some (.tup []) else none, r.2)
  | .pathParam, req, i =>
    let sn := next_segment req i
    (sn.1.map (fun s => .tup [.str s]), sn.2)
  | .header name, req, i =>
    ((req.header name).map (fun v => .tup [.str v]), i)
  | .endF, req, i =>
    (if i = req.path_segments.length then some (.tup []) else none, i)
  | .unit, _, i => (some (.tup []), i)
  | .and a b, req, i =>
    match a.run req i with
    | (none, i₁) => (none, i₁)
    | (some ea, i₁) =>
      match b.run req i₁ with
      | (none, i₂) => (none, i₂)
      | (some eb, i₂) => (combine ea eb, i₂)
  | .or a b, req, i =>
    match a.run req i with
    | (some ea, i₁) => (some (.eA ea), i₁)
    | (none, _) =>
      match b.run req i with
      | (some eb, i₂) => (some (.eB eb), i₂)
      | (none, _) => (none, i)
  | .maybe a b, req, i =>
    match a.run req i with
    | (none, i₁) => (none, i₁)
    | (some ea, i₁) =>
      match b.run req i₁ with
      | (some eb, i₂) =>
        match extractOne eb with
        | some v => (combine ea (.tup [.opt (some v)]), i₂)
        | none => (none, i₂)
      | (none, _) => (combine ea (.tup [.opt none]), i₁)
  | .map a f, req, i =>
    match a.run req i with
    | (none, i₁) => (none, i₁)
    | (some ea, i₁) => (some (f ea), i₁)

/-- The response builder (src/http/response.rs, `struct Response`).
The body byte vector is modelled as the string it encodes. -/
structure Response where
  status_code : Nat
  headers : List (String × String)
  body : Option String
  deriving DecidableEq, Repr

/-- Rust `Response::new` (src/http/response.rs:35-41). -/
def Response.new (status_code : Nat) : Response :=
  { status_code := status_code, headers := [], body := none }

/-- Rust `Response::body` (src/http/response.rs:82-85). -/
def Response.body_ (r : Response) (b : String) : Response :=
  { r with body := some b }

/-- Rust `Response::ok` (src/http/response.rs:43-46): status 200 with the
given body. -/
def Response.ok (b : String) : Response :=
  (Response.new 200).body_ b

/-- Rust `Response::not_found` (src/http/response.rs:69-71): status 404,
no headers, no body. -/
def Response.not_found : Response :=
  Response.new 404

/-- Rust `impl IntoResponse for Response` (src/http/response.rs:9-13):
the identity. -/
def Response.into_response (r : Response) : Response := r

/-- Rust `impl IntoResponse for &Response` (src/http/response.rs:15-19):
`self.clone()`; a clone of a value is the value itself. -/
def Response.ref_into_response (r : Response) : Response := r

/-- Rust `impl<S: AsRef<str>> IntoResponse for (u16, S)`
(src/http/response.rs:21-25): `Response::new(status).body(bytes)`. -/
def statusStr_into_response (p : Nat × String) : Response :=
  (Response.new p.1).body_ p.2

/-- Rust `impl<A: IntoResponse, B: IntoResponse> IntoResponse for Either<A, B>`
(src/http/filter.rs:194-201): delegate to the side that is present.
The conversions of the two sides are passed as functions on extracted
payloads; the catch-all arm is unreachable for the `Either`-shaped
extracts an `Or` filter produces. -/
def Either.into_response (cA cB : Ext → Response) (e : Ext) : Response :=
  match e with
  | .eA a => cA a
  | .eB b => cB b
  | _ => Response.not_found

/-- The host enumeration of the Rust types that carry an `IntoResponse`
implementation in this repository (the `Self` types of the four impl
blocks at src/http/response.rs:9, 15, 21 and src/http/filter.rs:194). -/
inductive RespTarget where
  | response
  | responseRef
  | statusStrTuple
  | eitherTy
  | stringTy
  deriving DecidableEq, Repr

/-- The `Self` types of all `impl IntoResponse for …` blocks present in
the source (src/http/response.rs and src/http/filter.rs). -/
def intoResponseImpls : List RespTarget :=
  [RespTarget.response, RespTarget.responseRef,
   RespTarget.statusStrTuple, RespTarget.eitherTy]

/-- The handler adapter `impl<A: Filter> RequestHandler for A`
(src/http/request.rs:154-169): run the filter from cursor 0, return
`404` if the final cursor differs from the number of path segments,
otherwise convert the extract (the `IntoResponse` conversion of the
extract type is passed as `conv`) or fall back to `404`. -/
def handle (f : Filter) (conv : Ext → Response) (req : Request) : Response :=
  let r := f.run req 0
  if r.2 ≠ req.path_segments.length then Response.not_found
  else
    match r.1 with
    | some e => conv e
    | none => Response.not_found

/-! ## Helper lemmas -/

/-- The loop of `Path::filter` never moves the cursor backward. -/
theorem pathLoop_le (req : Request) (segs : List String) (i : Nat) :
    i ≤ (pathLoop req segs i).2 := by
  induction segs generalizing i with
  | nil => simp [pathLoop]
  | cons s rest ih =>
    simp only [pathLoop, next_segment]
    split
    · exact Nat.le_trans (Nat.le_succ i) (ih (i + 1))
    · exact Nat.le_succ i

/-- Combining a tuple of at most two values with a one-tuple appends
the single value (the three one-tuple-consuming `Combiner` instances). -/
theorem combine_tup_one (l : List Val) (v : Val) (h : l.length ≤ 2) :
    combine (.tup l) (.tup [v]) = some (.tup (l ++ [v])) := by
  match l with
  | [] => rfl
  | [a] => rfl
  | [a, b] => rfl
  | a :: b :: c :: rest => simp at h

/-- A successful `Path` match extracts the empty tuple. -/
theorem run_pathLit_tup (p : String) (req : Request) (j k : Nat) (e : Ext)
    (h : (Filter.pathLit p).run req j = (some e, k)) : e = .tup [] := by
  simp only [Filter.run] at h
  split at h
  · simp only [Prod.mk.injEq, Option.some.injEq] at h
    exact h.1.symm
  · simp at h

/-- A successful `PathParam` match extracts a one-tuple. -/
theorem run_pathParam_tup (req : Request) (j k : Nat) (e : Ext)
    (h : Filter.pathParam.run req j = (some e, k)) : ∃ v : Val, e = .tup [v] := by
  simp only [Filter.run, next_segment] at h
  cases hs : req.path_segment j with
  | none => rw [hs] at h; simp at h
  | some s =>
    rw [hs] at h
    simp only [Option.map_some', Prod.mk.injEq, Option.some.injEq] at h
    exact ⟨.str s, h.1.symm⟩

/-! ## Claim theorems -/

/-- Claim C10: cursor monotonicity.  For every filter (primitive or
combinator) and every match context, the cursor after `filter()`
returns — match or no-match — is at least the cursor on entry; no
operation, including the fork-adoption paths of `Or` and `Maybe`,
ever moves the cursor below its entry value. -/
theorem cursor_monotone (F : Filter) (req : Request) (i : Nat) :
    i ≤ (F.run req i).2 := by
  induction F generalizing i with
  | method m => simp [Filter.run]
  | pathLit p =>
    simpa [Filter.run] using pathLoop_le req (splitSlash p) i
  | pathParam => simp [Filter.run, next_segment]
  | header n => simp [Filter.run]
  | endF => simp [Filter.run]
  | unit => simp [Filter.run]
  | and a b iha ihb =>
    simp only [Filter.run]
    split
    · rename_i i₁ heq
      have h1 := iha i
      rw [heq] at h1
      exact h1
    · rename_i ea i₁ heq
      have h1 := iha i
      rw [heq] at h1
      split
      · rename_i i₂ heq2
        have h2 := ihb i₁
        rw [heq2] at h2
        simp at h1 h2 ⊢
        omega
      · rename_i eb i₂ heq2
        have h2 := ihb i₁
        rw [heq2] at h2
        simp at h1 h2 ⊢
        omega
  | or a b iha ihb =>
    simp only [Filter.run]
    split
    · rename_i ea i₁ heq
      have h1 := iha i
      rw [heq] at h1
      exact h1
    · rename_i snd heq
      split
      · rename_i eb i₂ heq2
        have h2 := ihb i
        rw [heq2] at h2
        exact h2
      · simp
  | maybe a b iha ihb =>
    simp only [Filter.run]
    split
    · rename_i i₁ heq
      have h1 := iha i
      rw [heq] at h1
      exact h1
    · rename_i ea i₁ heq
      have h1 := iha i
      rw [heq] at h1
      split
      · rename_i eb i₂ heq2
        have h2 := ihb i₁
        rw [heq2] at h2
        split
        · simp at h1 h2 ⊢
          omega
        · simp at h1 h2 ⊢
          omega
      · rename_i snd heq2
        simpa using h1
  | map a f iha =>
    simp only [Filter.run]
    split
    · rename_i i₁ heq
      have h1 := iha i
      rw [heq] at h1
      exact h1
    · rename_i ea i₁ heq
      have h1 := iha i
      rw [heq] at h1
      exact h1

/-- Claim C1 counterexample: `Path::filter` does not restore the
cursor on a failed match.  The primitive `path("a")` run against the
request `GET /x` returns no-match yet leaves the cursor at 1, not at
its entry value 0 (`Context::next_segment` advances unconditionally
and `Path::filter` never snapshots). -/
theorem cursor_safety_counterexample :
    ((Filter.pathLit "a").run (Request.new .get "/x" [] none) 0).1 = none
    ∧ ((Filter.pathLit "a").run (Request.new .get "/x" [] none) 0).2 ≠ 0 := by
  constructor
  · rfl
  · decide

/-- Claim C1 (amended): cursor safety holds only at `Or` nodes and at
the non-consuming primitives.  An `Or` that returns no-match leaves
the cursor exactly at its entry value (both branches run on forked
clones); `Method`, `Header`, `End` and the trivial filter never move
the cursor at all.  The consuming primitives `Path` and `PathParam`,
and the combinators `And`/`Maybe`/`Map` around them, advance the
cursor past the failed attempt instead of restoring it. -/
theorem cursor_safety_amended :
    (∀ (A B : Filter) (req : Request) (i : Nat),
        ((A.or B).run req i).1 = none → ((A.or B).run req i).2 = i)
    ∧ (∀ (m : Method) (req : Request) (i : Nat),
        ((Filter.method m).run req i).2 = i)
    ∧ (∀ (n : String) (req : Request) (i : Nat),
        ((Filter.header n).run req i).2 = i)
    ∧ (∀ (req : Request) (i : Nat), (Filter.endF.run req i).2 = i)
    ∧ (∀ (req : Request) (i : Nat), (Filter.unit.run req i).2 = i) := by
  refine ⟨?_, fun m req i => rfl, fun n req i => rfl,
    fun req i => rfl, fun req i => rfl⟩
  intro A B req i h
  simp only [Filter.run] at h ⊢
  split at h
  · rename_i ea i₁ heq
    simp at h
  · rename_i snd heq
    split at h
    · rename_i eb i₂ heq2
      simp at h
    · rename_i snd2 heq2
      simp [heq2]

/-- Witness for the amended claim C1: both branches of
`path("b").or(path("c"))` fail on `GET /x` and the cursor stays at 0. -/
theorem cursor_safety_amended_witness :
    (((Filter.pathLit "b").or (Filter.pathLit "c")).run
      (Request.new .get "/x" [] none) 0).2 = 0 :=
  cursor_safety_amended.1 (Filter.pathLit "b") (Filter.pathLit "c")
    (Request.new .get "/x" [] none) 0 (by decide)

/-- Claim C3: Or-left-priority.  Whenever the left branch of
`Or(A, B)` matches from the starting cursor (in particular when both
branches would), the result is `Either::A` carrying the left extract
and the final cursor is the one the left match produced; the right
branch is never consulted. -/
theorem or_left_priority (A B : Filter) (req : Request) (i i₁ : Nat)
    (ea : Ext) (hA : A.run req i = (some ea, i₁))
    (hB : ((B.run req i).1).isSome = true) :
    (A.or B).run req i = (some (.eA ea), i₁) := by
  simp [Filter.run, hA]

/-- Witness for claim C3: `path("a").or(path("a"))` on `GET /a`,
where both branches would match, yields the left variant with the
final cursor 1 of the left branch. -/
theorem or_left_priority_witness :
    ((Filter.pathLit "a").or (Filter.pathLit "a")).run
      (Request.new .get "/a" [] none) 0 = (some (.eA (.tup [])), 1) :=
  or_left_priority (Filter.pathLit "a") (Filter.pathLit "a")
    (Request.new .get "/a" [] none) 0 1 (.tup []) (by decide) (by decide)

/-- Claim C4 counterexample: `And::filter` does not restore the cursor
when its right branch fails.  For `path("a").and(path("b"))` on
`GET /a/c`, the left branch consumes one segment, the right branch
fails and advances past the mismatch, and the combinator returns
no-match with the cursor at 2 instead of the pre-call value 0. -/
theorem and_restore_counterexample :
    (((Filter.pathLit "a").and (Filter.pathLit "b")).run
      (Request.new .get "/a/c" [] none) 0).1 = none
    ∧ (((Filter.pathLit "a").and (Filter.pathLit "b")).run
      (Request.new .get "/a/c" [] none) 0).2 ≠ 0 := by
  constructor
  · rfl
  · decide

/-- Claim C4 (amended): `And(A, B)` performs no snapshot or restore.
If A matches moving the cursor to an intermediate position and B then
returns no-match, the combinator returns no-match with the cursor
exactly where the failed attempt of B left it — not restored to the pre-A
position. -/
theorem and_no_restore (A B : Filter) (req : Request) (i i₁ : Nat)
    (ea : Ext) (hA : A.run req i = (some ea, i₁))
    (hB : (B.run req i₁).1 = none) :
    (A.and B).run req i = (none, (B.run req i₁).2) := by
  simp only [Filter.run, hA]
  rw [show B.run req i₁ = ((B.run req i₁).1, (B.run req i₁).2) from rfl, hB]

/-- Witness for the amended claim C4: `path("a").and(path("b"))` on
`GET /a/c` fails with the cursor at 2, where the failed attempt of the
right branch stopped. -/
theorem and_no_restore_witness :
    ((Filter.pathLit "a").and (Filter.pathLit "b")).run
      (Request.new .get "/a/c" [] none) 0
    = (none, ((Filter.pathLit "b").run (Request.new .get "/a/c" [] none) 1).2) :=
  and_no_restore (Filter.pathLit "a") (Filter.pathLit "b")
    (Request.new .get "/a/c" [] none) 0 1 (.tup []) (by decide) (by decide)

/-- Claim C2: handler adapter full-consumption gating.  For every
filter whose extract converts to a response (the conversion is `conv`)
and every request, the adapter returns the converted extract exactly
when the filter matches and the final cursor equals the number of path
segments; it returns the `404` response when the filter matches but
segments remain unconsumed, and also when the filter does not match. -/
theorem handle_gating (F : Filter) (conv : Ext → Response) (req : Request) :
    (∀ e : Ext, F.run req 0 = (some e, req.path_segments.length) →
        handle F conv req = conv e)
    ∧ (∀ (r : Option Ext) (j : Nat), F.run req 0 = (r, j) →
        j ≠ req.path_segments.length → handle F conv req = Response.not_found)
    ∧ (∀ j : Nat, F.run req 0 = (none, j) →
        handle F conv req = Response.not_found) := by
  refine ⟨?_, ?_, ?_⟩
  · intro e h
    simp [handle, h]
  · intro r j h hj
    simp [handle, h, hj]
  · intro j h
    by_cases hj : j = req.path_segments.length
    · subst hj
      simp [handle, h]
    · simp [handle, h, hj]

/-- Witness for claim C2: `path("hello")` on `GET /hello` matches,
exhausts the context, and the adapter returns the converted extract. -/
theorem handle_gating_witness :
    handle (Filter.pathLit "hello") (fun _ => Response.ok "hi")
      (Request.new .get "/hello" [] none) = Response.ok "hi" :=
  (handle_gating (Filter.pathLit "hello") (fun _ => Response.ok "hi")
    (Request.new .get "/hello" [] none)).1 (.tup []) (by decide)

/-- Claim C5: Maybe-optionality.  For filters A and B over a fixed
request — A extracting a Rust tuple of at most two values (the
`Combiner` bound) and B extracting a one-element tuple (the `OneTuple`
bound), both stated semantically — `Maybe(A, B)` succeeds exactly when
A succeeds; on success the optional slot is `Some(v)` exactly when B
matches from the cursor A left (the cursor then adopts the position of B),
and `None` otherwise (the cursor stays at the position of A). -/
theorem maybe_optionality (A B : Filter) (req : Request) (i : Nat)
    (hA : ∀ (j k : Nat) (e : Ext), A.run req j = (some e, k) →
        ∃ l : List Val, e = .tup l ∧ l.length ≤ 2)
    (hB : ∀ (j k : Nat) (e : Ext), B.run req j = (some e, k) →
        ∃ v : Val, e = .tup [v]) :
    ((((A.maybe B).run req i).1).isSome = (((A.run req i).1)).isSome)
    ∧ (∀ (l : List Val) (i₁ : Nat), A.run req i = (some (.tup l), i₁) →
        (∀ (v : Val) (i₂ : Nat), B.run req i₁ = (some (.tup [v]), i₂) →
            (A.maybe B).run req i = (some (.tup (l ++ [.opt (some v)])), i₂))
        ∧ ((B.run req i₁).1 = none →
            (A.maybe B).run req i = (some (.tup (l ++ [.opt none])), i₁))) := by
  constructor
  · rcases hrA : A.run req i with ⟨ra, i₁⟩
    cases ra with
    | none => simp [Filter.run, hrA]
    | some ea =>
      obtain ⟨l, rfl, hlen⟩ := hA i i₁ ea hrA
      rcases hrB : B.run req i₁ with ⟨rb, i₂⟩
      cases rb with
      | none =>
        simp [Filter.run, hrA, hrB, combine_tup_one l (.opt none) hlen]
      | some eb =>
        obtain ⟨v, rfl⟩ := hB i₁ i₂ eb hrB
        simp [Filter.run, hrA, hrB, extractOne,
          combine_tup_one l (.opt (some v)) hlen]
  · intro l i₁ hAi
    obtain ⟨l2, hl2, hlen⟩ := hA i i₁ (.tup l) hAi
    have hll : l = l2 := by injection hl2
    subst hll
    constructor
    · intro v i₂ hBv
      simp [Filter.run, hAi, hBv, extractOne,
        combine_tup_one l (.opt (some v)) hlen]
    · intro hBnone
      rcases hrB : B.run req i₁ with ⟨rb, i₂⟩
      rw [hrB] at hBnone
      simp only at hBnone
      subst hBnone
      simp [Filter.run, hAi, hrB, combine_tup_one l (.opt none) hlen]

/-- Witness for claim C5: `path("test").maybe(param)` on `GET /test/val`
succeeds with the optional slot filled and the cursor at the position B reached. -/
theorem maybe_optionality_witness :
    ((Filter.pathLit "test").maybe Filter.pathParam).run
      (Request.new .get "/test/val" [] none) 0
    = (some (.tup [.opt (some (.str "val"))]), 2) :=
  ((maybe_optionality (Filter.pathLit "test") Filter.pathParam
      (Request.new .get "/test/val" [] none) 0
      (fun j k e h => ⟨[], run_pathLit_tup "test" _ j k e h, by decide⟩)
      (fun j k e h => run_pathParam_tup _ j k e h)).2
    [] 1 (by decide)).1 (.str "val") 2 (by decide)

/-- Claim C6: a failed `Path` inside `Or` does not poison the
alternative.  For `path("api/a/b").or(path("api/a"))` on `GET /api/a`
the first branch fails after speculatively consuming both segments
(its fork is discarded), the second branch matches, the overall result
is the `Either::B` variant, the final context is exhausted, and the
handler returns the response of the second branch. -/
theorem or_failed_path_scenario :
    (Request.new .get "/api/a" [] none).path_segments = ["api", "a"]
    ∧ (Filter.pathLit "api/a/b").run (Request.new .get "/api/a" [] none) 0
      = (none, 3)
    ∧ ((Filter.pathLit "api/a/b").or (Filter.pathLit "api/a")).run
        (Request.new .get "/api/a" [] none) 0 = (some (.eB (.tup [])), 2)
    ∧ handle ((Filter.pathLit "api/a/b").or (Filter.pathLit "api/a"))
        (Either.into_response (fun _ => Response.ok "A")
          (fun _ => Response.ok "B"))
        (Request.new .get "/api/a" [] none) = Response.ok "B" :=
  ⟨rfl, rfl, rfl, rfl⟩

/-- Claim C7 counterexample: the right-associated composition fails.
With three `PathParam` primitives on `GET /a/b/c`, the left-associated
`(X and Y) and Z` matches with the flat 3-tuple, but `X and (Y and Z)`
yields no extract: it needs `Combine((X,), (Y,Z))`, and no `Combiner`
instance for a one-tuple with a two-tuple right operand exists in the
source (modelled by `combine` returning `none`), so the two
compositions do not both match with the same 3-tuple. -/
theorem and_assoc_counterexample :
    ((Filter.pathParam.and Filter.pathParam).and Filter.pathParam).run
        (Request.new .get "/a/b/c" [] none) 0
      = (some (.tup [.str "a", .str "b", .str "c"]), 3)
    ∧ (Filter.pathParam.and (Filter.pathParam.and Filter.pathParam)).run
        (Request.new .get "/a/b/c" [] none) 0 = (none, 3) :=
  ⟨rfl, rfl⟩

/-- Claim C7 (amended): for three filters with one-tuple extracts that
match in sequence, the left-associated `(X and Y) and Z` matches and
yields the flat 3-tuple of the three values; the right-associated
`X and (Y and Z)` is not well-typed in the source — there is no
`Combiner` instance combining a one-tuple with a two-tuple — so it
yields no extract. -/
theorem and_assoc_left_only (X Y Z : Filter) (req : Request)
    (i i₁ i₂ i₃ : Nat) (x y z : Val)
    (hX : X.run req i = (some (.tup [x]), i₁))
    (hY : Y.run req i₁ = (some (.tup [y]), i₂))
    (hZ : Z.run req i₂ = (some (.tup [z]), i₃)) :
    ((X.and Y).and Z).run req i = (some (.tup [x, y, z]), i₃)
    ∧ (X.and (Y.and Z)).run req i = (none, i₃) := by
  have c1 : combine (.tup [x]) (.tup [y]) = some (.tup [x, y]) := rfl
  have c2 : combine (.tup [x, y]) (.tup [z]) = some (.tup [x, y, z]) := rfl
  have c3 : combine (.tup [y]) (.tup [z]) = some (.tup [y, z]) := rfl
  have c4 : combine (.tup [x]) (.tup [y, z]) = none := rfl
  constructor
  · simp [Filter.run, hX, hY, hZ, c1, c2]
  · simp [Filter.run, hX, hY, hZ, c3, c4]

/-- Witness for the amended claim C7: three `PathParam` primitives on
`GET /x/y/z`. -/
theorem and_assoc_left_only_witness :
    ((Filter.pathParam.and Filter.pathParam).and Filter.pathParam).run
        (Request.new .get "/x/y/z" [] none) 0
      = (some (.tup [.str "x", .str "y", .str "z"]), 3)
    ∧ (Filter.pathParam.and (Filter.pathParam.and Filter.pathParam)).run
        (Request.new .get "/x/y/z" [] none) 0 = (none, 3) :=
  and_assoc_left_only Filter.pathParam Filter.pathParam Filter.pathParam
    (Request.new .get "/x/y/z" [] none) 0 1 2 3
    (.str "x") (.str "y") (.str "z") (by decide) (by decide) (by decide)

/-- Claim C8: `Request::new` normalizes (`"/"` gives no segments,
`"/a/b/"` gives `["a", "b"]`, and no raw path ever produces an empty
segment), but the stream parser `Request::parse` does not: it stores
`path.split('/')` verbatim, so the raw path `"/a/b/"` of the request
line `GET /a/b/ HTTP/1.1` produces `["", "a", "b", ""]` with empty
segments, contradicting the claim for parser-produced requests. -/
theorem path_normalization_eval :
    newPathSegments "/" = []
    ∧ newPathSegments "/a/b/" = ["a", "b"]
    ∧ (∀ p : String, ((newPathSegments p).all (fun s => !s.isEmpty)) = true)
    ∧ parsePathSegments "/a/b/" = ["", "a", "b", ""] := by
  refine ⟨rfl, rfl, ?_, rfl⟩
  intro p
  simp [newPathSegments, List.all_eq_true, List.mem_filter]

/-- Claim C9 counterexample: no `IntoResponse` implementation for a
plain string exists in the source; the implementations are exactly
those for `Response`, `&Response`, `(u16, S)` and `Either`. -/
theorem into_response_string_counterexample :
    (intoResponseImpls.contains RespTarget.stringTy) = false := by decide

/-- Claim C9 (amended): the `IntoResponse` conversion exists for a
`Response` (identity), a reference to a `Response` (clone, hence the
same value), a `(status, string)` tuple (a response with that code and
body), and `Either` with both sides convertible (delegating to the
side present) — but not for a plain string, which gains a response
only through the `(status, string)` tuple. -/
theorem into_response_impls_behavior :
    (intoResponseImpls.contains RespTarget.stringTy) = false
    ∧ (∀ r : Response, Response.into_response r = r)
    ∧ (∀ r : Response, Response.ref_into_response r = r)
    ∧ (∀ (st : Nat) (b : String), statusStr_into_response (st, b)
        = { status_code := st, headers := [], body := some b })
    ∧ (∀ (cA cB : Ext → Response) (e : Ext),
        Either.into_response cA cB (.eA e) = cA e)
    ∧ (∀ (cA cB : Ext → Response) (e : Ext),
        Either.into_response cA cB (.eB e) = cB e) :=
  ⟨by decide, fun r => rfl, fun r => rfl, fun st b => rfl,
    fun cA cB e => rfl, fun cA cB e => rfl⟩

end RustServe
